import Mathlib

/-!
Verification of the Cold VM launcher (source/Cold.cpp).

The development shallowly embeds the parts of the program the claims are
about: the command builder `buildQEMUCommand` (including the camera probe
over `lsusb` output, modelled down to the `std::string::substr` bounds
checks), the default-disk creation, the child-process supervisor
(`startQEMU` / `startWebsockify` / `cleanup` / `signalHandler`) as a pure
state transformer emitting an event trace, and `boot` / `main` control flow
with the external world (filesystem probes, fork results, `lsusb` output)
supplied as an explicit environment record.

C++ `std::string` is modelled as Lean `String` / `List Char`; fallible
string operations (`substr`, which throws `std::out_of_range` when the
position exceeds the size) return `Except Unit`.
-/

/-- `haystack` starts with `needle` (character-wise, like C++ comparison at
position 0). -/
def startsWithL : List Char → List Char → Bool
  | [], _ => true
  | _ :: _, [] => false
  | a :: as, b :: bs => a == b && startsWithL as bs

/-- Position of the first occurrence of `needle` in the haystack, like C++
`std::string::find`: `some i` for the leftmost match, `none` when absent
(`npos`). -/
def findSub (needle : List Char) : List Char → Option Nat
  | [] => if startsWithL needle [] then some 0 else none
  | c :: t =>
    if startsWithL needle (c :: t) then some 0
    else (findSub needle t).map (fun n => n + 1)

/-- C++ `hay.find(needle) != std::string::npos`. -/
def strContains (hay needle : String) : Bool :=
  (findSub needle.data hay.data).isSome

/-- `s` ends with the suffix `suff` (used to state the spec's suffix-based
format rule). -/
def endsWithS (s suff : String) : Bool :=
  startsWithL suff.data.reverse s.data.reverse

/-- C++ `s.substr(pos, count)`: throws `std::out_of_range` when
`pos > s.size()`, otherwise clamps `count` to the available characters. -/
def substrE (s : List Char) (pos count : Nat) : Except Unit (List Char) :=
  if s.length < pos then .error () else .ok ((s.drop pos).take count)

/-- The VM configuration fields of class `ColdVM` (Cold.cpp lines 20-39). -/
structure VMConfig where
  diskDir : String
  romPath : String
  firmwarePath : String
  varsPath : String
  noVNCPath : String
  useVNC : Bool
  useBridge : Bool
  bridgeInterface : String
  cpuCores : Nat
  ramGB : Nat
  cpuModel : String
  enableCamera : Bool
  enableAudio : Bool
  enableMicrophone : Bool
  deriving Repr, DecidableEq

/-- The defaults set by the `ColdVM` constructor (Cold.cpp lines 42-61). -/
def coldDefault : VMConfig :=
  { diskDir := "./devices/disk"
    romPath := "./devices/rom"
    firmwarePath := "./boot/firmware/OVMF_CODE.fd"
    varsPath := "./boot/firmware/OVMF_VARS.fd"
    noVNCPath := "./libraries/noVNC"
    useVNC := true
    useBridge := true
    bridgeInterface := "virbr0"
    cpuCores := 4
    ramGB := 4
    cpuModel := "host"
    enableCamera := true
    enableAudio := true
    enableMicrophone := true }

/-- `fs::path::extension` of a plain filename: the substring from the last
dot, empty when there is no dot or the only dot is the leading one. -/
def lastDotIdx : List Char → Option Nat
  | [] => none
  | c :: t =>
    match lastDotIdx t with
    | some i => some (i + 1)
    | none => if c == '.' then some 0 else none

/-- Extension of a filename, mirroring `std::filesystem::path::extension`. -/
def fileExtension (name : String) : String :=
  match lastDotIdx name.data with
  | none => ""
  | some 0 => ""
  | some i => String.mk (name.data.drop i)

/-- The extension filter of `findAllDisks` (Cold.cpp line 125). -/
def isDiskFile (name : String) : Bool :=
  let ext := fileExtension name
  ext == ".qcow2" || ext == ".img" || ext == ".raw" || ext == ".vdi" || ext == ".vmdk"

/-- `createDefaultDisk` (Cold.cpp lines 170-185) as a function of the
disk-directory listing and of whether the `qemu-img create` shell command
succeeds. First component: the returned bool. Second component: whether a
filesystem write was attempted (the `qemu-img create` invocation). The
source only tests existence of the single path `diskDir + "/disk.qcow2"`. -/
def createDefaultDisk (dirFiles : List String) (qemuImgOk : Bool) : Bool × Bool :=
  if dirFiles.contains "disk.qcow2" then (true, false)
  else (qemuImgOk, true)

/-- `createVarsFile` (Cold.cpp lines 187-219): every control path of the
source returns `true` (existing file, successful copy, or the zero-filled
fallback which is written without an error check). -/
def createVarsFile : Bool := true

/-- Disk format inference of `buildQEMUCommand` (Cold.cpp lines 267-276):
substring containment tested with `std::string::find`, in source order. -/
def diskFormat (diskPath : String) : String :=
  if strContains diskPath ".img" || strContains diskPath ".raw" then "raw"
  else if strContains diskPath ".vdi" then "vdi"
  else if strContains diskPath ".vmdk" then "vmdk"
  else "qcow2"

/-- Camera keyword match of the `lsusb` scan (Cold.cpp lines 363-366). -/
def cameraKeyword (line : List Char) : Bool :=
  (findSub "Camera".data line).isSome ||
  (findSub "Webcam".data line).isSome ||
  (findSub "HD Webcam".data line).isSome ||
  (findSub "Integrated Camera".data line).isSome

/-- Trailing-whitespace erase (Cold.cpp line 378:
`erase(find_last_not_of(" \n\r\t") + 1)`). -/
def rstripWS (s : List Char) : List Char :=
  ((s.reverse).dropWhile (fun ch => ch == ' ' || ch == '\n' || ch == '\r' || ch == '\t')).reverse

/-- ID extraction from a matched `lsusb` line (Cold.cpp lines 369-378),
with the `substr` bounds behaviour made explicit: `.error` is the uncaught
`std::out_of_range`. Returns (vendor, product, trimmed name). -/
def extractCamera (line : List Char) (idPos : Nat) :
    Except Unit (List Char × List Char × List Char) :=
  match substrE line (idPos + 3) 9 with
  | .error e => .error e
  | .ok ids =>
    match substrE ids 0 4 with
    | .error e => .error e
    | .ok vendor =>
      match substrE ids 5 4 with
      | .error e => .error e
      | .ok product =>
        let namePos := ((findSub ids line).getD (idPos + 3)) + 10
        match substrE line namePos line.length with
        | .error e => .error e
        | .ok nameRaw => .ok (vendor, product, rstripWS nameRaw)

/-- The `lsusb`-output loop of the camera probe (Cold.cpp lines 359-384):
first line matching a camera keyword and containing `"ID "` is parsed (and
the loop breaks); keyword lines without `"ID "` are skipped. -/
def probeCamera : List (List Char) → Except Unit (Option (List Char × List Char × List Char))
  | [] => .ok none
  | line :: rest =>
    if cameraKeyword line then
      match findSub "ID ".data line with
      | some idPos =>
        match extractCamera line idPos with
        | .error e => .error e
        | .ok r => .ok (some r)
      | none => probeCamera rest
    else probeCamera rest

/-- External observations consumed by `buildQEMUCommand`:
whether `fs::exists(firmwarePath)` holds, and the `lsusb` output
(`none` models a failed `popen`). -/
structure BuildEnv where
  firmwareExists : Bool
  lsusbLines : Option (List String)
  deriving Repr, DecidableEq

/-- Cold.cpp lines 224-249: executable, acceleration, CPU, RAM, VGA and
display transport arguments. -/
def baseArgs (c : VMConfig) : List String :=
  ["qemu-system-x86_64", "-enable-kvm", "-cpu", c.cpuModel, "-smp", toString c.cpuCores,
   "-m", toString c.ramGB ++ "G", "-vga", "virtio", "-display"] ++
  (if c.useVNC then ["none", "-vnc", ":1"] else ["gtk,gl=on"])

/-- Cold.cpp lines 252-260: OVMF firmware drive pair. -/
def fwArgs (c : VMConfig) (env : BuildEnv) : List String :=
  if env.firmwareExists then
    ["-drive", "if=pflash,format=raw,readonly=on,file=" ++ c.firmwarePath] ++
    (if createVarsFile then ["-drive", "if=pflash,format=raw,file=" ++ c.varsPath] else [])
  else []

/-- Cold.cpp lines 278-279: one drive entry per disk. -/
def diskArg (p : String) : List String :=
  ["-drive", "file=" ++ p ++ ",format=" ++ diskFormat p ++ ",if=virtio,cache=writeback"]

/-- Cold.cpp lines 263-284. -/
def diskArgsAll (disks : List String) : List String :=
  disks.flatMap diskArg

/-- Cold.cpp lines 287-302: first ISO as `-cdrom`, the rest as indexed
read-only IDE cdrom drives. -/
def isoArgsFrom : Nat → List String → List String
  | _, [] => []
  | 0, p :: rest => ["-cdrom", p] ++ isoArgsFrom 1 rest
  | Nat.succ i, p :: rest =>
    ["-drive", "file=" ++ p ++ ",media=cdrom,readonly=on,if=ide,index=" ++ toString (Nat.succ i)] ++
    isoArgsFrom (Nat.succ (Nat.succ i)) rest

/-- Cold.cpp lines 287-302. -/
def isoArgsAll (isos : List String) : List String :=
  isoArgsFrom 0 isos

/-- Cold.cpp lines 305-323: ALSA backend and HDA device. -/
def audioArgs (c : VMConfig) : List String :=
  if c.enableAudio then
    ["-audiodev", "alsa,id=audio0", "-device", "intel-hda"] ++
    (if c.enableMicrophone then ["-device", "hda-duplex,audiodev=audio0"]
     else ["-device", "hda-output,audiodev=audio0"])
  else []

/-- Cold.cpp lines 326-338: bridged backend carries the fixed MAC, the NAT
backend's device argument carries none. -/
def netArgs (c : VMConfig) : List String :=
  if c.useBridge then
    ["-netdev", "bridge,id=net0,br=" ++ c.bridgeInterface,
     "-device", "virtio-net-pci,netdev=net0,mac=52:54:00:12:34:56"]
  else
    ["-netdev", "user,id=net0", "-device", "virtio-net-pci,netdev=net0"]

/-- Cold.cpp lines 341-346. -/
def usbArgs : List String :=
  ["-device", "qemu-xhci,id=xhci", "-device", "usb-tablet"]

/-- Cold.cpp lines 349-402: camera passthrough arguments from the probe
over the `lsusb` output; `.error` is the uncaught `std::out_of_range`
escaping the build. -/
def cameraArgs (c : VMConfig) (env : BuildEnv) : Except Unit (List String) :=
  if c.enableCamera then
    match env.lsusbLines with
    | none => .ok []
    | some lines =>
      match probeCamera (lines.map String.data) with
      | .error e => .error e
      | .ok none => .ok []
      | .ok (some (v, p, _n)) =>
        .ok ["-device", "usb-host,vendorid=0x" ++ String.mk v ++ ",productid=0x" ++ String.mk p]
  else .ok []

/-- Cold.cpp lines 405-406. -/
def rtcArgs : List String :=
  ["-rtc", "base=localtime,clock=host,driftfix=slew"]

/-- Cold.cpp lines 409-415: boot order from ISO presence alone. -/
def bootArgs (isos : List String) : List String :=
  if isos.isEmpty then ["-boot", "order=c,menu=on"]
  else ["-boot", "order=dc,menu=on"]

/-- Cold.cpp lines 418-419. -/
def machineArgs : List String :=
  ["-machine", "type=q35,accel=kvm"]

/-- `ColdVM::buildQEMUCommand` (Cold.cpp lines 221-422), in source order. -/
def buildQEMUCommand (c : VMConfig) (env : BuildEnv) (disks isos : List String) :
    Except Unit (List String) :=
  match cameraArgs c env with
  | .error e => .error e
  | .ok cam =>
    .ok (baseArgs c ++ fwArgs c env ++ diskArgsAll disks ++ isoArgsAll isos ++
      audioArgs c ++ netArgs c ++ usbArgs ++ cam ++ rtcArgs ++ bootArgs isos ++ machineArgs)

/-- Observable actions of the supervisor on its children and on the
process: fork of a child (with the pid returned to the parent), `kill(pid,
SIGTERM)`, `waitpid(pid, ...)`, and `exit(code)`. -/
inductive Event where
  | spawnQemu (pid : Int)
  | spawnWs (pid : Int)
  | kill (pid : Int)
  | wait (pid : Int)
  | exitProc (code : Nat)
  deriving Repr, DecidableEq

/-- The mutable child-tracking state of `ColdVM`: `qemuPid` and
`websockifyPid`, with `-1` as the not-running sentinel (Cold.cpp lines
28-29, 51-52). -/
structure VMState where
  qemuPid : Int
  websockifyPid : Int
  deriving Repr, DecidableEq

/-- The state after the constructor: no child running. -/
def vmInit : VMState := ⟨-1, -1⟩

/-- `ColdVM::cleanup` (Cold.cpp lines 482-494): signal and wait the QEMU
child first if tracked, then the websockify child if tracked. The pids are
left untouched — the source never resets them to `-1`. -/
def cleanup (s : VMState) : VMState × List Event :=
  (s,
    (if s.qemuPid != -1 then [Event.kill s.qemuPid, Event.wait s.qemuPid] else []) ++
    (if s.websockifyPid != -1 then [Event.kill s.websockifyPid, Event.wait s.websockifyPid] else []))

/-- `signalHandler` (Cold.cpp lines 623-630): run `cleanup` on the global
instance, then `exit(0)`. -/
def signalHandler (s : VMState) : VMState × List Event :=
  let r := cleanup s
  (r.1, r.2 ++ [Event.exitProc 0])

/-- The external observations consumed by `boot` and the spawn functions:
results of the `which`/`ip link`/`fs::exists` probes, the directory scans,
and the two `fork` return values (`> 0` is the parent's view of a
successful fork; `< 0` is a failed fork). -/
structure BootEnv where
  qemuAvailable : Bool
  websockifyAvailable : Bool
  novncExists : Bool
  firmwareExists : Bool
  bridgeExists : Bool
  disksFound : List String
  isosFound : List String
  diskDirFiles : List String
  qemuImgOk : Bool
  disksAfterCreate : List String
  qemuForkResult : Int
  wsForkResult : Int
  lsusbLines : Option (List String)
  deriving Repr, DecidableEq

/-- The `BuildEnv` part of a `BootEnv`. -/
def buildEnvOf (env : BootEnv) : BuildEnv :=
  ⟨env.firmwareExists, env.lsusbLines⟩

/-- `checkBridgeInterface` (Cold.cpp lines 105-116) as it acts on the
configuration: when the bridge interface is absent, `useBridge` is cleared
(fallback to NAT); called from `boot` only when `useBridge` is set. -/
def bridgeAdjust (c : VMConfig) (env : BootEnv) : VMConfig :=
  if c.useBridge && !env.bridgeExists then { c with useBridge := false } else c

/-- The disk list `boot` ends up with (Cold.cpp lines 547-555): the first
scan, and when it is empty and `createDefaultDisk` returns true, the
rescan after the creation attempt. -/
def effDisks (env : BootEnv) : List String :=
  if env.disksFound.isEmpty then
    if (createDefaultDisk env.diskDirFiles env.qemuImgOk).1 then env.disksAfterCreate
    else env.disksFound
  else env.disksFound

/-- `ColdVM::startWebsockify` (Cold.cpp lines 424-447): immediate success
when VNC is off; failure when the noVNC directory is missing or the fork
fails; on success the pid is recorded and the spawn event emitted. -/
def startWebsockify (c : VMConfig) (env : BootEnv) (s : VMState) :
    VMState × List Event × Bool :=
  if !c.useVNC then (s, [], true)
  else if !env.novncExists then (s, [], false)
  else if 0 < env.wsForkResult then
    ({ s with websockifyPid := env.wsForkResult }, [Event.spawnWs env.wsForkResult], true)
  else (s, [], false)

/-- The spawn phase of `boot` (Cold.cpp lines 579-590) together with
`startQEMU` (lines 449-480): build the command (a camera-probe exception
escapes), fork QEMU, and in VNC mode spawn websockify, tearing the QEMU
child down via `cleanup` when that spawn fails. -/
def launchChildren (c : VMConfig) (env : BootEnv) (disks isos : List String) (s : VMState) :
    Except Unit (VMState × List Event × Bool) :=
  match buildQEMUCommand c (buildEnvOf env) disks isos with
  | .error e => .error e
  | .ok _ =>
    if 0 < env.qemuForkResult then
      let s1 : VMState := { s with qemuPid := env.qemuForkResult }
      if c.useVNC then
        let r := startWebsockify c env s1
        if r.2.2 then .ok (r.1, Event.spawnQemu env.qemuForkResult :: r.2.1, true)
        else
          let cl := cleanup r.1
          .ok (cl.1, (Event.spawnQemu env.qemuForkResult :: r.2.1) ++ cl.2, false)
      else .ok (s1, [Event.spawnQemu env.qemuForkResult], true)
    else .ok (s, [], false)

/-- `ColdVM::boot` (Cold.cpp lines 515-610): requirement checks, media
discovery with the default-disk fallback, refusal when no bootable media
remain, then the spawn phase. -/
def boot (c0 : VMConfig) (env : BootEnv) (s : VMState) :
    Except Unit (VMState × List Event × Bool) :=
  if !env.qemuAvailable then .ok (s, [], false)
  else if c0.useVNC && !env.websockifyAvailable then .ok (s, [], false)
  else if (effDisks env).isEmpty && env.isosFound.isEmpty then .ok (s, [], false)
  else launchChildren (bridgeAdjust c0 env) env (effDisks env) env.isosFound s

/-- The argument loop of `main` (Cold.cpp lines 640-669): flag effects in
order; `--help`/`-h` prints the help and returns 0 immediately. Second
component: whether the help path was taken. -/
def processArgs : VMConfig → List String → VMConfig × Bool
  | c, [] => (c, false)
  | c, a :: rest =>
    if a == "--no-vnc" then processArgs { c with useVNC := false } rest
    else if a == "--no-bridge" then processArgs { c with useBridge := false } rest
    else if a == "--no-camera" then processArgs { c with enableCamera := false } rest
    else if a == "--no-mic" then processArgs { c with enableMicrophone := false } rest
    else if a == "--help" || a == "-h" then (c, true)
    else processArgs c rest

/-- Outcome of `main`: `exits code` for a `return code`; `loops` for the
infinite `sleep(1)` loop (the process then only leaves via a termination
signal, whose handler runs `cleanup` and calls `exit(0)`); `aborted` for
an uncaught C++ exception (`std::terminate`). -/
inductive MainOutcome where
  | exits (code : Nat)
  | loops
  | aborted
  deriving Repr, DecidableEq

/-- `main` (Cold.cpp lines 632-681): process the flags, print help and
return 0, or boot and either loop forever (boot true) or return 1. -/
def coldMain (args : List String) (env : BootEnv) : MainOutcome :=
  let pa := processArgs coldDefault args
  if pa.2 then MainOutcome.exits 0
  else
    match boot pa.1 env vmInit with
    | .error _ => MainOutcome.aborted
    | .ok (_, _, true) => MainOutcome.loops
    | .ok (_, _, false) => MainOutcome.exits 1

/-- The help text printed by `main` (Cold.cpp lines 651-666), one entry
per output line, parametrised by `argv[0]`. -/
def helpLines (exe : String) : List String :=
  ["Cold VM Manager - Advanced Virtual Machine System",
   "Usage: " ++ exe ++ " [options]",
   "Options:",
   "  --no-vnc      Use local GTK display instead of VNC",
   "  --no-bridge   Use NAT networking instead of bridge",
   "  --no-camera   Disable camera passthrough",
   "  --no-mic      Disable microphone",
   "  --help, -h    Show this help message",
   "Default configuration:",
   "  - 6 GB RAM",
   "  - 4 CPU cores (host model)",
   "  - VirtIO devices",
   "  - VNC with remote scaling",
   "  - Bridge networking (virbr0)",
   "  - Camera, audio & microphone enabled"]

lemma startsWithL_self_append (n t : List Char) : startsWithL n (n ++ t) = true := by
  induction n with
  | nil => rfl
  | cons c cs ih => simp [startsWithL, ih]

lemma findSub_isSome_append (n a t : List Char) :
    (findSub n (a ++ (n ++ t))).isSome = true := by
  induction a with
  | nil =>
    have h := startsWithL_self_append n t
    cases hnt : n ++ t with
    | nil => simp [findSub, hnt ▸ h]
    | cons c r => simp [findSub, hnt ▸ h]
  | cons c a ih =>
    simp only [List.cons_append, findSub]
    split
    · rfl
    · simpa using ih

lemma startsWithL_exists (n : List Char) :
    ∀ h : List Char, startsWithL n h = true → ∃ t, h = n ++ t := by
  induction n with
  | nil => exact fun h _ => ⟨h, rfl⟩
  | cons c cs ih =>
    intro h hs
    cases h with
    | nil => simp [startsWithL] at hs
    | cons b bs =>
      simp only [startsWithL, Bool.and_eq_true, beq_iff_eq] at hs
      obtain ⟨t, ht⟩ := ih bs hs.2
      exact ⟨t, by simp [hs.1, ht]⟩

lemma contains_of_endsWith (s suff : String) (h : endsWithS s suff = true) :
    strContains s suff = true := by
  unfold endsWithS at h
  obtain ⟨t, ht⟩ := startsWithL_exists _ _ h
  have hs : s.data = t.reverse ++ (suff.data ++ []) := by
    have := congrArg List.reverse ht
    simpa using this
  unfold strContains
  rw [hs]
  exact findSub_isSome_append _ _ _

/-- C5 (counterexample): the disk path `./devices/disk/backup.img.vdi` ends
in `.vdi` — so the claim's suffix rule demands the `vdi` format token — yet
`buildQEMUCommand`'s inference yields `raw`, because the source tests
substring containment (`find`) and checks `.img`/`.raw` first. -/
theorem diskFormat_suffix_rule_refuted :
    endsWithS "./devices/disk/backup.img.vdi" ".vdi" = true ∧
    isDiskFile "backup.img.vdi" = true ∧
    diskFormat "./devices/disk/backup.img.vdi" = "raw" ∧
    ("raw" : String) ≠ "vdi" := by
  refine ⟨by decide, by decide, by decide, by decide⟩

/-- C5 (amended): format inference is by substring containment, tested in
the order `.img`/`.raw`, then `.vdi`, then `.vmdk`, defaulting to `qcow2`;
the claim's suffix rule holds exactly when the path contains no
occurrence of a token of higher precedence than its own suffix. -/
theorem diskFormat_containment (p : String) :
    (endsWithS p ".img" = true → diskFormat p = "raw") ∧
    (endsWithS p ".raw" = true → diskFormat p = "raw") ∧
    (endsWithS p ".vdi" = true → strContains p ".img" = false →
      strContains p ".raw" = false → diskFormat p = "vdi") ∧
    (endsWithS p ".vmdk" = true → strContains p ".img" = false →
      strContains p ".raw" = false → strContains p ".vdi" = false →
      diskFormat p = "vmdk") ∧
    (strContains p ".img" = false → strContains p ".raw" = false →
      strContains p ".vdi" = false → strContains p ".vmdk" = false →
      diskFormat p = "qcow2") := by
  refine ⟨?_, ?_, ?_, ?_, ?_⟩
  · intro h
    have hc := contains_of_endsWith p ".img" h
    simp [diskFormat, hc]
  · intro h
    have hc := contains_of_endsWith p ".raw" h
    simp [diskFormat, hc]
  · intro h h1 h2
    have hc := contains_of_endsWith p ".vdi" h
    simp [diskFormat, h1, h2, hc]
  · intro h h1 h2 h3
    have hc := contains_of_endsWith p ".vmdk" h
    simp [diskFormat, h1, h2, h3, hc]
  · intro h1 h2 h3 h4
    simp [diskFormat, h1, h2, h3, h4]

/-- Witness for `diskFormat_containment` at concrete paths, one per
extension. -/
theorem diskFormat_containment_witness :
    diskFormat "a.img" = "raw" ∧ diskFormat "a.raw" = "raw" ∧
    diskFormat "a.vdi" = "vdi" ∧ diskFormat "a.vmdk" = "vmdk" ∧
    diskFormat "a.qcow2" = "qcow2" := by
  refine ⟨(diskFormat_containment "a.img").1 (by decide),
    (diskFormat_containment "a.raw").2.1 (by decide),
    (diskFormat_containment "a.vdi").2.2.1 (by decide) (by decide) (by decide),
    (diskFormat_containment "a.vmdk").2.2.2.1 (by decide) (by decide) (by decide) (by decide),
    (diskFormat_containment "a.qcow2").2.2.2.2 (by decide) (by decide) (by decide) (by decide)⟩

/-- C6 (counterexample): a disk directory holding `a.img` — a disk file
with a recognized extension — does not make `createDefaultDisk` a no-op:
the source only tests for the literal name `disk.qcow2`, so it still
invokes `qemu-img create`, a filesystem write. -/
theorem createDefaultDisk_writes_despite_existing_disk :
    isDiskFile "a.img" = true ∧
    createDefaultDisk ["a.img"] true = (true, true) := by
  refine ⟨by decide, by decide⟩

/-- C6 (amended): `createDefaultDisk` is a no-op returning success exactly
when the directory already contains a file named `disk.qcow2`; in the
program the difference is invisible because `boot` only calls it after the
scan found no recognized disk at all. -/
theorem createDefaultDisk_noop_iff_default_name (dirFiles : List String) (ok : Bool)
    (h : dirFiles.contains "disk.qcow2" = true) :
    createDefaultDisk dirFiles ok = (true, false) := by
  simp only [createDefaultDisk]
  rw [h]
  simp

/-- Witness for `createDefaultDisk_noop_iff_default_name`. -/
theorem createDefaultDisk_noop_witness :
    createDefaultDisk ["disk.qcow2"] false = (true, false) :=
  createDefaultDisk_noop_iff_default_name ["disk.qcow2"] false (by decide)

/-- A truncated `lsusb` line that matches a camera keyword: the ID field
holds fewer than five characters after `"ID "`. -/
def truncatedCameraLine : String := "Integrated Camera ID 12:4"

/-- C7: on the truncated line the camera probe raises the modelled
`std::out_of_range` (from `ids.substr(5, 4)` with `ids = "12:4"`), and the
exception escapes `buildQEMUCommand` — the build aborts instead of
omitting the device with a warning. -/
theorem probeCamera_truncated_line_aborts_build :
    probeCamera [truncatedCameraLine.data] = .error () ∧
    buildQEMUCommand coldDefault ⟨false, some [truncatedCameraLine]⟩ ["d.qcow2"] [] =
      .error () := by
  refine ⟨rfl, rfl⟩

/-- C10: the constructor's default RAM is 4 GB and the built invocation's
memory argument is `"4G"` (arguments 6 and 7 of the produced argv), while
the help text advertises `6 GB RAM`; the advertised and actual defaults
disagree. -/
theorem default_ram_disagrees_with_help :
    coldDefault.ramGB = 4 ∧
    (buildQEMUCommand coldDefault ⟨false, none⟩ [] []).map
      (fun cmd => (cmd.get? 6, cmd.get? 7)) = .ok (some "-m", some "4G") ∧
    "  - 6 GB RAM" ∈ helpLines "cold" ∧
    ("  - " ++ toString coldDefault.ramGB ++ " GB RAM") ≠ "  - 6 GB RAM" := by
  refine ⟨rfl, rfl, by decide, by decide⟩

/-- C1 (counterexample): with both children started (QEMU pid 100,
websockify pid 200), `cleanup` signals and waits the hypervisor first —
the trace is not the claimed proxy-first reversal. -/
theorem cleanup_proxy_first_refuted :
    (cleanup ⟨100, 200⟩).2 =
      [Event.kill 100, Event.wait 100, Event.kill 200, Event.wait 200] ∧
    (cleanup ⟨100, 200⟩).2 ≠
      [Event.kill 200, Event.wait 200, Event.kill 100, Event.wait 100] := by
  refine ⟨by decide, by decide⟩

/-- C1 (amended): when both children are tracked, `cleanup` signals and
waits the QEMU (hypervisor) child first and only then the websockify
(display-proxy) child — teardown repeats the spawn order instead of
reversing it. -/
theorem cleanup_signals_hypervisor_first (s : VMState)
    (hq : s.qemuPid ≠ -1) (hw : s.websockifyPid ≠ -1) :
    (cleanup s).2 = [Event.kill s.qemuPid, Event.wait s.qemuPid,
      Event.kill s.websockifyPid, Event.wait s.websockifyPid] := by
  simp [cleanup, bne_iff_ne, hq, hw]

/-- Witness for `cleanup_signals_hypervisor_first`. -/
theorem cleanup_signals_hypervisor_first_witness :
    (cleanup ⟨100, 200⟩).2 =
      [Event.kill 100, Event.wait 100, Event.kill 200, Event.wait 200] :=
  cleanup_signals_hypervisor_first ⟨100, 200⟩ (by decide) (by decide)

/-- C2 (counterexample): after a completed `cleanup` with both children
tracked, a second invocation does not find an empty teardown — it
signals and waits the already-stopped children again, since the source
neither resets the pids nor consults a shutting-down flag. -/
theorem cleanup_second_invocation_signals_again :
    (cleanup (cleanup ⟨100, 200⟩).1).2 ≠ [] ∧
    (cleanup (cleanup ⟨100, 200⟩).1).2 = (cleanup ⟨100, 200⟩).2 := by
  refine ⟨by decide, by decide⟩

/-- C2 (amended): `cleanup` has no idempotency guard: it leaves the pid
state unchanged, so a second invocation re-issues exactly the same
signal-and-wait sequence — including a renewed `kill` of the QEMU child;
the only protection in the program is that `signalHandler` calls
`exit(0)` after its single `cleanup`. -/
theorem cleanup_has_no_idempotency_guard (s : VMState) (hq : s.qemuPid ≠ -1) :
    (cleanup s).1 = s ∧
    (cleanup (cleanup s).1).2 = (cleanup s).2 ∧
    Event.kill s.qemuPid ∈ (cleanup (cleanup s).1).2 ∧
    (signalHandler s).2 = (cleanup s).2 ++ [Event.exitProc 0] := by
  refine ⟨rfl, rfl, ?_, rfl⟩
  simp [cleanup, bne_iff_ne, hq]

/-- Witness for `cleanup_has_no_idempotency_guard`. -/
theorem cleanup_has_no_idempotency_guard_witness :
    (cleanup (⟨100, 200⟩ : VMState)).1 = (⟨100, 200⟩ : VMState) ∧
    Event.kill 100 ∈ (cleanup (cleanup ⟨100, 200⟩).1).2 := by
  obtain ⟨h1, _, h3, _⟩ := cleanup_has_no_idempotency_guard ⟨100, 200⟩ (by decide)
  exact ⟨h1, h3⟩

/-- C8 (counterexample): in user-mode NAT (`useBridge = false`) the built
invocation attaches the virtio NIC as `virtio-net-pci,netdev=net0` and no
argument of the whole invocation mentions `mac=` — the fixed MAC address
of the claim is absent in this mode. -/
theorem nat_mode_invocation_has_no_mac :
    (buildQEMUCommand { coldDefault with useBridge := false } ⟨false, none⟩ [] []).map
      (fun cmd => (cmd.contains "virtio-net-pci,netdev=net0",
        cmd.any (fun a => strContains a "mac="))) = .ok (true, false) := by
  rfl

/-- C8 (amended): both network modes attach a paravirtualized
(`virtio-net-pci`) NIC, but only bridged mode fixes the MAC address
`52:54:00:12:34:56`; the NAT-mode network arguments carry no `mac=`
option at all. -/
theorem virtio_nic_mac_only_in_bridge_mode (c : VMConfig) (env : BuildEnv)
    (d i : List String) (cmd : List String)
    (h : buildQEMUCommand c env d i = .ok cmd) :
    (c.useBridge = true →
      "virtio-net-pci,netdev=net0,mac=52:54:00:12:34:56" ∈ cmd) ∧
    (c.useBridge = false →
      "virtio-net-pci,netdev=net0" ∈ cmd ∧
      ∀ a ∈ netArgs c, strContains a "mac=" = false) := by
  cases hcam : cameraArgs c env with
  | error e => simp [buildQEMUCommand, hcam] at h
  | ok cam =>
    simp only [buildQEMUCommand, hcam] at h
    rw [Except.ok.injEq] at h
    subst h
    constructor
    · intro hb
      have hm : "virtio-net-pci,netdev=net0,mac=52:54:00:12:34:56" ∈ netArgs c := by
        simp [netArgs, hb]
      simp only [List.mem_append]
      tauto
    · intro hb
      refine ⟨?_, ?_⟩
      · have hm : "virtio-net-pci,netdev=net0" ∈ netArgs c := by
          simp [netArgs, hb]
        simp only [List.mem_append]
        tauto
      · simp only [netArgs, hb, Bool.false_eq_true, if_false]
        decide

/-- Witness for `virtio_nic_mac_only_in_bridge_mode`, bridged mode at the
default configuration. -/
theorem virtio_nic_mac_only_in_bridge_mode_witness :
    ∃ cmd, buildQEMUCommand coldDefault ⟨false, none⟩ [] [] = .ok cmd ∧
      "virtio-net-pci,netdev=net0,mac=52:54:00:12:34:56" ∈ cmd := by
  refine ⟨_, rfl, ?_⟩
  exact (virtio_nic_mac_only_in_bridge_mode coldDefault ⟨false, none⟩ [] [] _ rfl).1 rfl

/-- C9: every successfully built invocation ends with a boot-order
argument pair determined solely by ISO presence — `order=dc,menu=on`
(optical media prioritized) when at least one ISO is attached, else the
disk-only `order=c,menu=on` — followed by the machine arguments. -/
theorem bootOrder_from_iso_presence (c : VMConfig) (env : BuildEnv) (d i : List String)
    (cmd : List String) (h : buildQEMUCommand c env d i = .ok cmd) :
    ∃ pre, cmd = pre ++ (if i.isEmpty then ["-boot", "order=c,menu=on"]
      else ["-boot", "order=dc,menu=on"]) ++ ["-machine", "type=q35,accel=kvm"] := by
  cases hcam : cameraArgs c env with
  | error e => simp [buildQEMUCommand, hcam] at h
  | ok cam =>
    simp only [buildQEMUCommand, hcam] at h
    rw [Except.ok.injEq] at h
    subst h
    refine ⟨baseArgs c ++ fwArgs c env ++ diskArgsAll d ++ isoArgsAll i ++
      audioArgs c ++ netArgs c ++ usbArgs ++ cam ++ rtcArgs, ?_⟩
    simp [bootArgs, machineArgs, List.append_assoc]

/-- Witness for `bootOrder_from_iso_presence` with one ISO present. -/
theorem bootOrder_from_iso_presence_witness :
    ∃ cmd, buildQEMUCommand coldDefault ⟨false, none⟩ [] ["a.iso"] = .ok cmd ∧
      ∃ pre, cmd = pre ++ ["-boot", "order=dc,menu=on"] ++
        ["-machine", "type=q35,accel=kvm"] := by
  refine ⟨_, rfl, ?_⟩
  have h := bootOrder_from_iso_presence coldDefault ⟨false, none⟩ [] ["a.iso"] _ rfl
  simpa using h

lemma bridgeAdjust_useVNC (c : VMConfig) (env : BootEnv) :
    (bridgeAdjust c env).useVNC = c.useVNC := by
  unfold bridgeAdjust
  split <;> rfl

/-- C3: in remote-display mode, when the QEMU fork succeeded and the
websockify spawn fails (missing noVNC directory or failed fork), `boot`
reports failure after tearing the QEMU child down — the trace is exactly
spawn, signal, wait on the hypervisor pid, with no websockify spawn event
and the proxy pid still at the not-running sentinel. -/
theorem boot_tears_down_hypervisor_on_proxy_failure (c : VMConfig) (env : BootEnv)
    (hvnc : c.useVNC = true) (hq : env.qemuAvailable = true)
    (hw : env.websockifyAvailable = true)
    (hmedia : ((effDisks env).isEmpty && env.isosFound.isEmpty) = false)
    (hbuild : ∃ cmd, buildQEMUCommand (bridgeAdjust c env) (buildEnvOf env)
      (effDisks env) env.isosFound = .ok cmd)
    (hfork : 0 < env.qemuForkResult)
    (hfail : env.novncExists = false ∨ env.wsForkResult ≤ 0) :
    boot c env vmInit = .ok (⟨env.qemuForkResult, -1⟩,
      [Event.spawnQemu env.qemuForkResult, Event.kill env.qemuForkResult,
       Event.wait env.qemuForkResult], false) := by
  obtain ⟨cmd, hc⟩ := hbuild
  have hvnc2 : (bridgeAdjust c env).useVNC = true := by
    rw [bridgeAdjust_useVNC, hvnc]
  have hne : env.qemuForkResult ≠ -1 := by omega
  simp only [boot, hq, hvnc, hw, hmedia, Bool.not_true, Bool.true_and, Bool.false_eq_true,
    if_false]
  simp only [launchChildren, hc, if_pos hfork, hvnc2, if_true]
  rcases hfail with hn | hwf
  · simp [startWebsockify, hvnc2, hn, cleanup, bne_iff_ne, hne, vmInit]
  · have hwf2 : ¬ (0 < env.wsForkResult) := by omega
    simp [startWebsockify, hvnc2, hwf2, cleanup, bne_iff_ne, hne, vmInit]

/-- A concrete environment for the proxy-failure scenario: QEMU and
websockify installed, noVNC assets missing, one disk found, QEMU fork
returns pid 100, websockify fork would return 50. -/
def envProxyFail : BootEnv :=
  ⟨true, true, false, false, true, ["./devices/disk/disk.qcow2"], [],
   ["disk.qcow2"], true, [], 100, 50, none⟩

/-- Witness for `boot_tears_down_hypervisor_on_proxy_failure`. -/
theorem boot_tears_down_hypervisor_on_proxy_failure_witness :
    boot coldDefault envProxyFail vmInit =
      .ok (⟨100, -1⟩, [Event.spawnQemu 100, Event.kill 100, Event.wait 100], false) :=
  boot_tears_down_hypervisor_on_proxy_failure coldDefault envProxyFail rfl rfl rfl
    (by decide) ⟨_, rfl⟩ (by decide) (Or.inl rfl)

/-- C4: with no bootable media left even after the default-disk creation
attempt, `boot` refuses the launch before any child is spawned (empty
event trace) whatever the configuration; `main` then returns 1, returns 0
when the help flag was processed, and returns 1 whenever `boot` reports
failure to reach the active state. -/
theorem boot_refusal_and_exit_codes (args : List String) (env : BootEnv)
    (hd : effDisks env = []) (hi : env.isosFound = []) :
    (∀ c, boot c env vmInit = .ok (vmInit, [], false)) ∧
    ((processArgs coldDefault args).2 = true → coldMain args env = MainOutcome.exits 0) ∧
    ((processArgs coldDefault args).2 = false → coldMain args env = MainOutcome.exits 1) ∧
    (∀ args2 env2 st evs, (processArgs coldDefault args2).2 = false →
      boot (processArgs coldDefault args2).1 env2 vmInit = .ok (st, evs, false) →
      coldMain args2 env2 = MainOutcome.exits 1) := by
  have h1 : ∀ c, boot c env vmInit = .ok (vmInit, [], false) := by
    intro c
    simp [boot, hd, hi]
  refine ⟨h1, ?_, ?_, ?_⟩
  · intro hh
    simp [coldMain, hh]
  · intro hh
    simp [coldMain, hh, h1]
  · intro args2 env2 st evs hh hb
    simp [coldMain, hh, hb]

/-- A concrete environment with nothing installed and no media anywhere. -/
def envNoMedia : BootEnv :=
  ⟨false, false, false, false, false, [], [], [], false, [], -1, -1, none⟩

/-- Witness for `boot_refusal_and_exit_codes`. -/
theorem boot_refusal_and_exit_codes_witness :
    boot coldDefault envNoMedia vmInit = .ok (vmInit, [], false) ∧
    coldMain ["--help"] envNoMedia = MainOutcome.exits 0 ∧
    coldMain [] envNoMedia = MainOutcome.exits 1 := by
  obtain ⟨h1, h2, -, -⟩ := boot_refusal_and_exit_codes ["--help"] envNoMedia rfl rfl
  obtain ⟨-, -, h3, -⟩ := boot_refusal_and_exit_codes [] envNoMedia rfl rfl
  exact ⟨h1 coldDefault, h2 rfl, h3 rfl⟩
